import Mathlib

/-!
Verification of the SMU conformer utilities (`smu/parser/smu_utils_lib.py`).

This file gives a shallow embedding of the record-merging, error-severity,
fate-determination and topology-summary logic of that module, and proves the
frozen claims about it.  Protobuf scalar fields are embedded with their proto3
defaults (0 for numbers, empty list for repeated fields); optional wrapped
scalars are `Option ℚ` whose read value defaults to 0, matching the Python
protobuf accessor semantics.  Python floats are modelled as rationals, and
Python exceptions as `Except` errors.
-/

deriving instance DecidableEq for Except

namespace SmuUtilsLib

/-- Modelled from the spec: the Python exceptions the module can raise.
`valueError` covers the explicit `raise ValueError(...)` contract violations;
`indexError` covers out-of-range indexing of a repeated protobuf field
(`conf.initial_geometries[0]` on an empty container). -/
inductive MergeError where
  | valueError : MergeError
  | indexError : MergeError
deriving DecidableEq

/-- Modelled from the spec: the visibility tier enum of `dataset_pb2`
(`which_database`: none / STANDARD / COMPLETE); the generated protobuf schema
is not under src/.  `UNSPECIFIED` is the proto3 default value. -/
inductive WhichDatabase where
  | UNSPECIFIED : WhichDatabase
  | STANDARD : WhichDatabase
  | COMPLETE : WhichDatabase
deriving DecidableEq

/-- Modelled from the spec: `dataset_pb2.Conformer.FateCategory`, the terminal
categorical outcome enum; the constructor names are exactly the enum values the
source refers to, with `FATE_UNDEFINED` as the proto3 default. -/
inductive FateCategory where
  | FATE_UNDEFINED : FateCategory
  | FATE_DUPLICATE_SAME_TOPOLOGY : FateCategory
  | FATE_DUPLICATE_DIFFERENT_TOPOLOGY : FateCategory
  | FATE_GEOMETRY_OPTIMIZATION_PROBLEM : FateCategory
  | FATE_DISASSOCIATED : FateCategory
  | FATE_FORCE_CONSTANT_FAILURE : FateCategory
  | FATE_DISCARDED_OTHER : FateCategory
  | FATE_NO_CALCULATION_RESULTS : FateCategory
  | FATE_CALCULATION_WITH_SERIOUS_ERROR : FateCategory
  | FATE_CALCULATION_WITH_MAJOR_ERROR : FateCategory
  | FATE_CALCULATION_WITH_MODERATE_ERROR : FateCategory
  | FATE_CALCULATION_WITH_WARNING_SERIOUS : FateCategory
  | FATE_CALCULATION_WITH_WARNING_VIBRATIONAL : FateCategory
  | FATE_SUCCESS : FateCategory
deriving DecidableEq

/-- Modelled from the spec: `dataset_pb2.BondTopology` (atoms, bonds, id,
smiles, starting-topology flag); the generated protobuf schema is not under
src/.  Atom types and bond types are embedded as plain numbers; protobuf
message equality is field-wise structural equality. -/
structure BondTopology where
  bond_topology_id : Int := 0
  atoms : List Nat := []
  bonds : List (Nat × Nat × Nat) := []
  smiles : String := ""
  is_starting_topology : Bool := false
deriving DecidableEq

/-- Modelled from the spec: a 3-D geometry, a repeated list of atom positions;
the generated protobuf schema is not under src/. -/
structure Geometry where
  atom_positions : List (ℚ × ℚ × ℚ) := []
deriving DecidableEq

/-- Modelled from the spec: the `errors` sub-record of `properties`: the
unified `status`, the four legacy stage-1 error codes, and the warning
counters consulted by the severity ladder.  All proto3 scalars default to 0. -/
structure Errors where
  status : Int := 0
  error_nstat1 : Int := 0
  error_nstatc : Int := 0
  error_nstatt : Int := 0
  error_frequencies : Int := 0
  warn_t1 : Int := 0
  warn_t1_excess : Int := 0
  warn_bse_b5_b6 : Int := 0
  warn_bse_cccsd_b5 : Int := 0
  warn_exc_lowest_excitation : Int := 0
  warn_exc_smallest_oscillator : Int := 0
  warn_exc_largest_oscillator : Int := 0
  warn_vib_linearity : Int := 0
  warn_vib_imaginary : Int := 0
deriving DecidableEq

/-- Modelled from the spec: the `properties` bag, restricted to the fields the
verified operations read or write.  `calculation_statistics` is a repeated
field of which only the entry count is ever consulted, so it is embedded as
that count.  The four geometry energy / gradient-norm fields are wrapped
scalars with presence (`Option`); a read of `.value` on an absent field yields
the default 0.  `harmonic_frequencies` is the repeated `value` list of the
corresponding MultiScalar field. -/
structure Properties where
  calculation_statistics : Nat := 0
  errors : Errors := {}
  initial_geometry_energy : Option ℚ := none
  initial_geometry_gradient_norm : Option ℚ := none
  optimized_geometry_energy : Option ℚ := none
  optimized_geometry_gradient_norm : Option ℚ := none
  harmonic_frequencies : List ℚ := []
deriving DecidableEq

/-- Modelled from the spec: `dataset_pb2.Conformer`, restricted to the fields
the verified operations touch.  `has_properties` is the protobuf presence bit
of the `properties` sub-message (`HasField`); reading `properties` of a record
without the bit set yields all defaults, as in Python protobuf. -/
structure Conformer where
  conformer_id : Int := 0
  duplicated_by : Int := 0
  duplicate_of : List Int := []
  initial_geometries : List Geometry := []
  optimized_geometry : Option Geometry := none
  bond_topologies : List BondTopology := []
  has_properties : Bool := false
  properties : Properties := {}
  fate : FateCategory := .FATE_UNDEFINED
  which_database : WhichDatabase := .UNSPECIFIED
deriving DecidableEq

/-- Reading `.value` of an optional wrapped scalar field: the stored value, or
the proto3 default 0 when the field is absent. -/
def field_value (f : Option ℚ) : ℚ := f.getD 0

/-- The `_ConformerSource` enum of the source. -/
inductive ConformerSource where
  | DUPLICATE : ConformerSource
  | STAGE1 : ConformerSource
  | STAGE2 : ConformerSource
deriving DecidableEq

/-- The numeric enum value of a `_ConformerSource` (DUPLICATE = 0,
STAGE1 = 1, STAGE2 = 2), used by the ordering swap in `merge_conformer`. -/
def ConformerSource.value : ConformerSource → Nat
  | .DUPLICATE => 0
  | .STAGE1 => 1
  | .STAGE2 => 2

/-- `_conformer_source`: determines the source of a conformer.  A record
without `properties` must carry duplicate information, else `ValueError`;
with `properties`, exactly 2 `calculation_statistics` entries means STAGE1,
anything else STAGE2. -/
def conformer_source (conf : Conformer) : Except MergeError ConformerSource :=
  if ¬ conf.has_properties then
    if conf.duplicated_by = 0 ∧ conf.duplicate_of = [] then .error .valueError
    else .ok .DUPLICATE
  else if conf.properties.calculation_statistics = 2 then .ok .STAGE1
  else .ok .STAGE2

/-- Modelled from the spec: proto3 `MergeFrom` on a singular scalar —
the source value overwrites the destination iff it is non-default. -/
def merge_scalar_int (a b : Int) : Int := if b ≠ 0 then b else a

/-- Modelled from the spec: proto3 `MergeFrom` on an optional wrapped scalar —
an absent source leaves the destination; a present source is merged into the
destination (recursively: its inner scalar overwrites iff nonzero), or copied
wholesale when the destination is absent. -/
def merge_option_rat : Option ℚ → Option ℚ → Option ℚ
  | a, none => a
  | none, some b => some b
  | some a, some b => some (if b ≠ 0 then b else a)

/-- Modelled from the spec: proto3 `MergeFrom` on a geometry message —
repeated atom positions are concatenated. -/
def Geometry.merge_from (g1 g2 : Geometry) : Geometry :=
  { atom_positions := g1.atom_positions ++ g2.atom_positions }

/-- Modelled from the spec: proto3 `MergeFrom` on an optional geometry
sub-message. -/
def merge_option_geometry : Option Geometry → Option Geometry → Option Geometry
  | a, none => a
  | none, some b => some b
  | some a, some b => some (a.merge_from b)

/-- Modelled from the spec: proto3 `MergeFrom` on the `errors` sub-record:
every scalar is overwritten iff the source value is nonzero. -/
def Errors.merge_from (a b : Errors) : Errors where
  status := merge_scalar_int a.status b.status
  error_nstat1 := merge_scalar_int a.error_nstat1 b.error_nstat1
  error_nstatc := merge_scalar_int a.error_nstatc b.error_nstatc
  error_nstatt := merge_scalar_int a.error_nstatt b.error_nstatt
  error_frequencies := merge_scalar_int a.error_frequencies b.error_frequencies
  warn_t1 := merge_scalar_int a.warn_t1 b.warn_t1
  warn_t1_excess := merge_scalar_int a.warn_t1_excess b.warn_t1_excess
  warn_bse_b5_b6 := merge_scalar_int a.warn_bse_b5_b6 b.warn_bse_b5_b6
  warn_bse_cccsd_b5 := merge_scalar_int a.warn_bse_cccsd_b5 b.warn_bse_cccsd_b5
  warn_exc_lowest_excitation :=
    merge_scalar_int a.warn_exc_lowest_excitation b.warn_exc_lowest_excitation
  warn_exc_smallest_oscillator :=
    merge_scalar_int a.warn_exc_smallest_oscillator b.warn_exc_smallest_oscillator
  warn_exc_largest_oscillator :=
    merge_scalar_int a.warn_exc_largest_oscillator b.warn_exc_largest_oscillator
  warn_vib_linearity := merge_scalar_int a.warn_vib_linearity b.warn_vib_linearity
  warn_vib_imaginary := merge_scalar_int a.warn_vib_imaginary b.warn_vib_imaginary

/-- Modelled from the spec: proto3 `MergeFrom` on the `properties`
sub-message: repeated fields concatenate (so the statistics entry count adds),
sub-messages merge recursively. -/
def Properties.merge_from (a b : Properties) : Properties where
  calculation_statistics := a.calculation_statistics + b.calculation_statistics
  errors := a.errors.merge_from b.errors
  initial_geometry_energy :=
    merge_option_rat a.initial_geometry_energy b.initial_geometry_energy
  initial_geometry_gradient_norm :=
    merge_option_rat a.initial_geometry_gradient_norm b.initial_geometry_gradient_norm
  optimized_geometry_energy :=
    merge_option_rat a.optimized_geometry_energy b.optimized_geometry_energy
  optimized_geometry_gradient_norm :=
    merge_option_rat a.optimized_geometry_gradient_norm b.optimized_geometry_gradient_norm
  harmonic_frequencies := a.harmonic_frequencies ++ b.harmonic_frequencies

/-- Modelled from the spec: proto3 `conf1.MergeFrom(conf2)` on whole conformer
records, as invoked by `merge_conformer` for two DUPLICATE-source records:
scalars overwrite iff non-default, repeated fields concatenate, sub-messages
merge recursively. -/
def Conformer.merge_from (a b : Conformer) : Conformer where
  conformer_id := merge_scalar_int a.conformer_id b.conformer_id
  duplicated_by := merge_scalar_int a.duplicated_by b.duplicated_by
  duplicate_of := a.duplicate_of ++ b.duplicate_of
  initial_geometries := a.initial_geometries ++ b.initial_geometries
  optimized_geometry := merge_option_geometry a.optimized_geometry b.optimized_geometry
  bond_topologies := a.bond_topologies ++ b.bond_topologies
  has_properties := a.has_properties || b.has_properties
  properties := a.properties.merge_from b.properties
  fate := if b.fate ≠ .FATE_UNDEFINED then b.fate else a.fate
  which_database := if b.which_database ≠ .UNSPECIFIED then b.which_database else a.which_database

/-- The snapshot of `MERGE_CONFLICT_FIELDS` values that `merge_conformer`
collects up front (lines 890-901) and returns alongside a conflicted merge.
Field names and order follow `MERGE_CONFLICT_FIELDS`; the `_1` fields are read
from the first (lower-source) record and the `_2` fields from the second. -/
structure ConflictInfo where
  conformer_id : Int
  error_nstat1 : Int
  error_nstatc : Int
  error_nstatv : Int
  error_nstatt : Int
  initial_geometry_energy_1 : ℚ
  initial_geometry_gradient_norm_1 : ℚ
  optimized_geometry_energy_1 : ℚ
  optimized_geometry_gradient_norm_1 : ℚ
  has_initial_geometry_1 : Bool
  has_optimized_geometry_1 : Bool
  initial_geometry_energy_2 : ℚ
  initial_geometry_gradient_norm_2 : ℚ
  optimized_geometry_energy_2 : ℚ
  optimized_geometry_gradient_norm_2 : ℚ
  has_initial_geometry_2 : Bool
  has_optimized_geometry_2 : Bool
deriving DecidableEq

/-- Builds the `conflict_info` snapshot of `merge_conformer` from the two
(already source-ordered) records. -/
def merge_conflict_info (conf1 conf2 : Conformer) : ConflictInfo where
  conformer_id := conf1.conformer_id
  error_nstat1 := conf1.properties.errors.error_nstat1
  error_nstatc := conf1.properties.errors.error_nstatc
  error_nstatv := conf1.properties.errors.error_frequencies
  error_nstatt := conf1.properties.errors.error_nstatt
  initial_geometry_energy_1 := field_value conf1.properties.initial_geometry_energy
  initial_geometry_gradient_norm_1 := field_value conf1.properties.initial_geometry_gradient_norm
  optimized_geometry_energy_1 := field_value conf1.properties.optimized_geometry_energy
  optimized_geometry_gradient_norm_1 :=
    field_value conf1.properties.optimized_geometry_gradient_norm
  has_initial_geometry_1 := !conf1.initial_geometries.isEmpty
  has_optimized_geometry_1 := conf1.optimized_geometry.isSome
  initial_geometry_energy_2 := field_value conf2.properties.initial_geometry_energy
  initial_geometry_gradient_norm_2 := field_value conf2.properties.initial_geometry_gradient_norm
  optimized_geometry_energy_2 := field_value conf2.properties.optimized_geometry_energy
  optimized_geometry_gradient_norm_2 :=
    field_value conf2.properties.optimized_geometry_gradient_norm
  has_initial_geometry_2 := !conf2.initial_geometries.isEmpty
  has_optimized_geometry_2 := conf2.optimized_geometry.isSome

/-- `np.isclose(a, b, atol=atol, rtol=0)`: absolute closeness within `atol`. -/
def np_isclose (a b atol : ℚ) : Bool := decide (|a - b| ≤ atol)

/-- One iteration of the paired numeric-field conflict loop of
`merge_conformer` (lines 922-936): a stage-2 value of exactly -1 is a sentinel
and is never a conflict; otherwise the two values conflict when they are not
within `atol` of each other. -/
def numeric_field_conflict (val1 val2 atol : ℚ) : Bool :=
  decide (val2 ≠ -1) && !(np_isclose val1 val2 atol)

/-- The four paired numeric-field conflict checks of `merge_conformer`, with
the absolute tolerances of the source: 2e-6 for the two energies, 1e-6 for
the two gradient norms. -/
def numeric_conflicts (conf1 conf2 : Conformer) : Bool :=
  numeric_field_conflict (field_value conf1.properties.initial_geometry_energy)
      (field_value conf2.properties.initial_geometry_energy) (2 / 1000000)
  || numeric_field_conflict (field_value conf1.properties.initial_geometry_gradient_norm)
      (field_value conf2.properties.initial_geometry_gradient_norm) (1 / 1000000)
  || numeric_field_conflict (field_value conf1.properties.optimized_geometry_energy)
      (field_value conf2.properties.optimized_geometry_energy) (2 / 1000000)
  || numeric_field_conflict (field_value conf1.properties.optimized_geometry_gradient_norm)
      (field_value conf2.properties.optimized_geometry_gradient_norm) (1 / 1000000)

/-- The whitelist of allowed legacy stage-1 error-code 4-tuples
(nstat1, nstatc, frequencies, nstatt) from `merge_conformer`. -/
def allowed_error_code_tuples : List (Int × Int × Int × Int) :=
  [(1, 1, 1, 1), (3, 1, 1, 1), (2, 3, 2, 1), (5, 1, 3, 1), (1, 1, 101, 1)]

/-- The legacy error-code combination check of `merge_conformer`
(lines 938-951): frequencies code 101 is accepted only for the one historical
conformer 795795001 (checked against the stage-2 record's id); any other
combination must be on the whitelist. -/
def error_codes_conflict (conf1 conf2 : Conformer) : Bool :=
  let e := conf1.properties.errors
  if e.error_frequencies = 101 then
    decide (conf2.conformer_id ≠ 795795001)
  else
    decide ((e.error_nstat1, e.error_nstatc, e.error_frequencies, e.error_nstatt)
      ∉ allowed_error_code_tuples)

/-- All conflict conditions of the STAGE1/STAGE2 branch of `merge_conformer`
(bond-topology and initial-geometry cardinality, optimized-geometry presence,
the four numeric tolerance checks, and the legacy error-code whitelist), read
off the records as they enter the branch.  The source interleaves these checks
with field copies, but none of the copies feeds a later check, so the combined
flag is a function of the incoming records. -/
def stage12_has_conflict (conf1 conf2 : Conformer) : Bool :=
  (decide (conf1.bond_topologies.length ≠ 1) || decide (conf2.bond_topologies.length ≠ 1))
  || decide (conf1.initial_geometries.length ≠ conf2.initial_geometries.length)
  || decide (conf1.optimized_geometry.isSome ≠ conf2.optimized_geometry.isSome)
  || numeric_conflicts conf1 conf2
  || error_codes_conflict conf1 conf2

/-- The copy of the four `STAGE1_ERROR_FIELDS` legacy codes from the stage-1
record into the stage-2 record (lines 916-920). -/
def copy_stage1_error_fields (conf1 conf2 : Conformer) : Conformer :=
  { conf2 with properties.errors.error_nstat1 := conf1.properties.errors.error_nstat1,
               properties.errors.error_nstatc := conf1.properties.errors.error_nstatc,
               properties.errors.error_nstatt := conf1.properties.errors.error_nstatt,
               properties.errors.error_frequencies := conf1.properties.errors.error_frequencies }

/-- The STAGE1/STAGE2 body of `merge_conformer` (lines 906-974): evaluates the
conflict conditions, copies the legacy error codes and the authoritative
stage-1 initial-geometry data into the stage-2 record (the indexing
`conf2.initial_geometries[0]`/`conf1.initial_geometries[0]` raises IndexError
when either side has no initial geometry), and applies the 700/800 re-basing
special case.  Returns the pair of records as left after the branch (they are
swapped by the re-basing case) together with the conflict flag. -/
def merge_stage1_stage2 (conf1 conf2 : Conformer) :
    Except MergeError (Conformer × Conformer × Bool) :=
  let has_conflict := stage12_has_conflict conf1 conf2
  let conf2a := copy_stage1_error_fields conf1 conf2
  let conf2b := { conf2a with
    properties.initial_geometry_energy :=
      some (field_value conf1.properties.initial_geometry_energy),
    properties.initial_geometry_gradient_norm :=
      some (field_value conf1.properties.initial_geometry_gradient_norm) }
  match conf2b.initial_geometries, conf1.initial_geometries with
  | _ :: rest2, g1 :: _ =>
    let conf2c := { conf2b with initial_geometries := g1 :: rest2 }
    if conf2c.properties.errors.status = 800 ∨ conf2c.properties.errors.status = 700 then
      -- Flip back because everything is based on the stage1 file from here.
      let c1 := conf2c
      let c2 := conf1
      let c2a := { c2 with
        properties.errors.status := 500 + Int.fdiv c1.properties.errors.status 10,
        which_database := WhichDatabase.COMPLETE }
      let c2b :=
        if c2a.properties.harmonic_frequencies.any (fun v => decide (v < -30)) then
          { c2a with properties.errors.warn_vib_imaginary := 2 }
        else if c2a.properties.harmonic_frequencies.any (fun v => decide (v < 0)) then
          { c2a with properties.errors.warn_vib_imaginary := 1 }
        else c2a
      .ok (c1, c2b, has_conflict)
    else
      .ok (conf1, conf2c, has_conflict)
  | _, _ => .error .indexError

/-- The duplicate-link reconciliation and return of `merge_conformer`
(lines 976-988): incompatible nonzero `duplicated_by` links raise; otherwise
the surviving second record absorbs the nonzero link and the first record's
`duplicate_of` entries, and is returned with the snapshot iff a conflict was
found. -/
def finish_merge (conf1 conf2 : Conformer) (has_conflict : Bool) (info : ConflictInfo) :
    Except MergeError (Conformer × Option ConflictInfo) :=
  if conf1.duplicated_by ≠ 0 ∧ conf2.duplicated_by ≠ 0 ∧
      conf1.duplicated_by ≠ conf2.duplicated_by then
    .error .valueError
  else
    let merged := { conf2 with
      duplicated_by := max conf1.duplicated_by conf2.duplicated_by,
      duplicate_of := conf2.duplicate_of ++ conf1.duplicate_of }
    if has_conflict then .ok (merged, some info) else .ok (merged, none)

/-- The middle of `merge_conformer` after the source-ordering swap
(lines 867-988): cardinality validation, bond-topology equality validation,
snapshot, the STAGE1/STAGE2 branch, and the final reconciliation. -/
def merge_ordered (conf1 conf2 : Conformer) (source1 source2 : ConformerSource) :
    Except MergeError (Conformer × Option ConflictInfo) :=
  if conf1.initial_geometries.length > 1 then .error .valueError
  else if conf2.initial_geometries.length > 1 then .error .valueError
  else if conf1.bond_topologies.length > 1 then .error .valueError
  else if conf2.bond_topologies.length > 1 then .error .valueError
  else if (match conf1.bond_topologies, conf2.bond_topologies with
           | bt1 :: _, bt2 :: _ => decide (bt1 ≠ bt2)
           | _, _ => false) then .error .valueError
  else
    let info := merge_conflict_info conf1 conf2
    let step :=
      if source1 = .STAGE1 ∧ source2 = .STAGE2 then merge_stage1_stage2 conf1 conf2
      else .ok (conf1, conf2, false)
    match step with
    | .error e => .error e
    | .ok (c1, c2, has_conflict) => finish_merge c1 c2 has_conflict info

/-- `merge_conformer`: merges the information of two partial records of the
same conformer.  Same-source STAGE1 or STAGE2 pairs are unmergeable
(`ValueError`); same-source DUPLICATE pairs combine by protobuf `MergeFrom`;
mixed pairs are ordered by source severity and merged by `merge_ordered`. -/
def merge_conformer (conf1 conf2 : Conformer) :
    Except MergeError (Conformer × Option ConflictInfo) :=
  match conformer_source conf1 with
  | .error e => .error e
  | .ok source1 =>
    match conformer_source conf2 with
    | .error e => .error e
    | .ok source2 =>
      if source1 = source2 then
        if source1 = .STAGE1 ∨ source1 = .STAGE2 then .error .valueError
        else .ok (conf1.merge_from conf2, none)
      else if source2.value < source1.value then
        merge_ordered conf2 conf1 source2 source1
      else
        merge_ordered conf1 conf2 source1 source2

/-- The STAGE2 part of `conformer_calculation_error_level` (lines 1021-1041):
the descending severity ladder on the unified status and warning counters. -/
def stage2_error_level (errors : Errors) : Int :=
  if errors.status ≥ 64 then 5
  else if errors.status ≥ 8 then 4
  else if errors.status ≥ 4 then 3
  else if errors.warn_t1 > 1 ∨ errors.warn_t1_excess > 1 ∨
      errors.warn_bse_b5_b6 > 1 ∨ errors.warn_bse_cccsd_b5 > 1 ∨
      errors.warn_exc_lowest_excitation > 1 ∨
      errors.warn_exc_smallest_oscillator > 0 ∨
      errors.warn_exc_largest_oscillator > 0 then 2
  else if errors.warn_vib_linearity > 0 ∨ errors.warn_vib_imaginary > 1 then 1
  else 0

/-- `conformer_calculation_error_level`: the 0..5 severity of a conformer.
STAGE1 records are binary (5 unless nstat1 ∈ {1,3} and the other three legacy
codes are all 1); every other source goes through the STAGE2 ladder. -/
def conformer_calculation_error_level (conformer : Conformer) : Except MergeError Int :=
  match conformer_source conformer with
  | .error e => .error e
  | .ok .STAGE1 =>
    let errors := conformer.properties.errors
    if errors.error_nstat1 ≠ 1 ∧ errors.error_nstat1 ≠ 3 then .ok 5
    else if errors.error_nstatc ≠ 1 ∨ errors.error_nstatt ≠ 1 ∨
        errors.error_frequencies ≠ 1 then .ok 5
    else .ok 0
  | .ok _ => .ok (stage2_error_level conformer.properties.errors)

/-- `determine_fate`: the terminal categorical outcome of a conformer.
DUPLICATE records are left undefined; STAGE1 records branch on the duplicate
link (same/different bond-topology component of the ids, Python `// 1000`)
and then on the unified status; STAGE2 records map the severity level to a
fate, with an internal `ValueError` branch for a severity outside 0..5. -/
def determine_fate (conformer : Conformer) : Except MergeError FateCategory :=
  match conformer_source conformer with
  | .error e => .error e
  | .ok .DUPLICATE => .ok .FATE_UNDEFINED
  | .ok .STAGE1 =>
    if conformer.duplicated_by > 0 then
      let this_btid := Int.fdiv conformer.conformer_id 1000
      let other_btid := Int.fdiv conformer.duplicated_by 1000
      if this_btid = other_btid then .ok .FATE_DUPLICATE_SAME_TOPOLOGY
      else .ok .FATE_DUPLICATE_DIFFERENT_TOPOLOGY
    else
      let status := conformer.properties.errors.status
      if status = 600 then .ok .FATE_GEOMETRY_OPTIMIZATION_PROBLEM
      else if status = 590 then .ok .FATE_DISASSOCIATED
      else if status = 570 ∨ status = 580 then .ok .FATE_DISCARDED_OTHER
      else .ok .FATE_NO_CALCULATION_RESULTS
  | .ok .STAGE2 =>
    match conformer_calculation_error_level conformer with
    | .error e => .error e
    | .ok error_level =>
      if error_level = 5 then .ok .FATE_CALCULATION_WITH_SERIOUS_ERROR
      else if error_level = 4 then .ok .FATE_CALCULATION_WITH_MAJOR_ERROR
      else if error_level = 3 then .ok .FATE_CALCULATION_WITH_MODERATE_ERROR
      else if error_level = 2 then .ok .FATE_CALCULATION_WITH_WARNING_SERIOUS
      else if error_level = 1 then .ok .FATE_CALCULATION_WITH_WARNING_VIBRATIONAL
      else if error_level = 0 then .ok .FATE_SUCCESS
      else .error .valueError

/-- One field of `clean_up_sentinel_values`: clear the field iff its read
value is exactly -1.0. -/
def clear_sentinel (f : Option ℚ) : Option ℚ :=
  if field_value f = -1 then none else f

/-- `clean_up_sentinel_values`: clears each of the four `_SENTINEL_VALUE_FIELDS`
geometry energy / gradient-norm fields whose value is exactly -1.0. -/
def clean_up_sentinel_values (conformer : Conformer) : Conformer :=
  { conformer with
    properties.initial_geometry_energy :=
      clear_sentinel conformer.properties.initial_geometry_energy,
    properties.initial_geometry_gradient_norm :=
      clear_sentinel conformer.properties.initial_geometry_gradient_norm,
    properties.optimized_geometry_energy :=
      clear_sentinel conformer.properties.optimized_geometry_energy,
    properties.optimized_geometry_gradient_norm :=
      clear_sentinel conformer.properties.optimized_geometry_gradient_norm }

/-- The loop of `get_starting_bond_topology_index`: index of the first bond
topology flagged `is_starting_topology`, if any. -/
def find_starting_index : List BondTopology → Option Nat
  | [] => none
  | bt :: rest =>
    if bt.is_starting_topology then some 0 else (find_starting_index rest).map (· + 1)

/-- `get_starting_bond_topology_index`: the sole entry if there is exactly
one bond topology, else the first entry flagged `is_starting_topology`;
`ValueError` when none is flagged. -/
def get_starting_bond_topology_index (conformer : Conformer) : Except MergeError Nat :=
  if conformer.bond_topologies.length = 1 then .ok 0
  else
    match find_starting_index conformer.bond_topologies with
    | some i => .ok i
    | none => .error .valueError

/-- Modelled from the spec: `dataset_pb2.BondTopologySummary`, the
per-bond-topology accumulator of counts; the generated protobuf schema is not
under src/.  All counts default to 0. -/
structure BondTopologySummary where
  bond_topology : BondTopology := {}
  count_attempted_conformers : Nat := 0
  count_duplicates_same_topology : Nat := 0
  count_duplicates_different_topology : Nat := 0
  count_failed_geometry_optimization : Nat := 0
  count_kept_geometry : Nat := 0
  count_missing_calculation : Nat := 0
  count_calculation_with_error : Nat := 0
  count_calculation_with_warning : Nat := 0
  count_calculation_success : Nat := 0
  count_detected_match_with_error : Nat := 0
  count_detected_match_with_warning : Nat := 0
  count_detected_match_success : Nat := 0
deriving DecidableEq

/-- The `other_topologies` inner generator of
`conformer_to_bond_topology_summaries`: every bond topology except the
starting one (all of them when no starting index was found). -/
def other_topologies (conformer : Conformer) (starting_idx : Option Nat) : List BondTopology :=
  match starting_idx with
  | none => conformer.bond_topologies
  | some i => conformer.bond_topologies.take i ++ conformer.bond_topologies.drop (i + 1)

/-- `conformer_to_bond_topology_summaries`: the finite sequence of summaries
the generator yields, in yield order (the per-other-topology "detected match"
summaries first, then the primary summary for the starting topology when one
was found).  An undefined fate raises `ValueError`. -/
def conformer_to_bond_topology_summaries (conformer : Conformer) :
    Except MergeError (List BondTopologySummary) :=
  let starting_idx := (get_starting_bond_topology_index conformer).toOption
  let summary : BondTopologySummary :=
    match starting_idx with
    | some i => { bond_topology := conformer.bond_topologies[i]?.getD {},
                  count_attempted_conformers := 1 }
    | none => {}
  let others := other_topologies conformer starting_idx
  let primary (s : BondTopologySummary) : List BondTopologySummary :=
    match starting_idx with
    | some _ => [s]
    | none => []
  match conformer.fate with
  | .FATE_UNDEFINED => .error .valueError
  | .FATE_DUPLICATE_SAME_TOPOLOGY =>
    .ok (primary { summary with count_duplicates_same_topology := 1 })
  | .FATE_DUPLICATE_DIFFERENT_TOPOLOGY =>
    .ok (primary { summary with count_duplicates_different_topology := 1 })
  | .FATE_GEOMETRY_OPTIMIZATION_PROBLEM | .FATE_DISASSOCIATED
  | .FATE_FORCE_CONSTANT_FAILURE | .FATE_DISCARDED_OTHER =>
    .ok (primary { summary with count_failed_geometry_optimization := 1 })
  | .FATE_NO_CALCULATION_RESULTS =>
    .ok (primary { summary with count_kept_geometry := 1, count_missing_calculation := 1 })
  | .FATE_CALCULATION_WITH_SERIOUS_ERROR | .FATE_CALCULATION_WITH_MAJOR_ERROR
  | .FATE_CALCULATION_WITH_MODERATE_ERROR =>
    .ok ((others.map fun bt => { bond_topology := bt, count_detected_match_with_error := 1 })
      ++ primary { summary with count_kept_geometry := 1, count_calculation_with_error := 1 })
  | .FATE_CALCULATION_WITH_WARNING_SERIOUS | .FATE_CALCULATION_WITH_WARNING_VIBRATIONAL =>
    .ok ((others.map fun bt => { bond_topology := bt, count_detected_match_with_warning := 1 })
      ++ primary { summary with count_kept_geometry := 1, count_calculation_with_warning := 1 })
  | .FATE_SUCCESS =>
    .ok ((others.map fun bt => { bond_topology := bt, count_detected_match_success := 1 })
      ++ primary { summary with count_kept_geometry := 1, count_calculation_success := 1 })

/-! Concrete records used by witnesses and counterexamples. -/

/-- A bond topology shared by the concrete example records. -/
def ex_bt : BondTopology := { bond_topology_id := 123 }

/-- A well-formed STAGE1 record (two calculation-statistics entries, legacy
error codes (1,1,1,1), one initial geometry, one bond topology). -/
def ex_stage1 : Conformer := {
  conformer_id := 123001,
  has_properties := true,
  properties := {
    calculation_statistics := 2,
    errors := { error_nstat1 := 1, error_nstatc := 1, error_frequencies := 1, error_nstatt := 1 },
    initial_geometry_energy := some 1,
    initial_geometry_gradient_norm := some 1,
    optimized_geometry_energy := some 1,
    optimized_geometry_gradient_norm := some 1 },
  initial_geometries := [{ atom_positions := [] }],
  optimized_geometry := some { atom_positions := [] },
  bond_topologies := [ex_bt] }

/-- A well-formed STAGE2 record matching `ex_stage1`, with unified status 700
(the re-basing special case). -/
def ex_stage2_700 : Conformer := {
  conformer_id := 123001,
  has_properties := true,
  properties := {
    calculation_statistics := 0,
    errors := { status := 700 },
    initial_geometry_energy := some 1,
    initial_geometry_gradient_norm := some 1,
    optimized_geometry_energy := some 1,
    optimized_geometry_gradient_norm := some 1 },
  initial_geometries := [{ atom_positions := [] }],
  optimized_geometry := some { atom_positions := [] },
  bond_topologies := [ex_bt] }

/-- A well-formed STAGE2 record matching `ex_stage1`, with unified status 0. -/
def ex_stage2 : Conformer := { ex_stage2_700 with properties.errors.status := 0 }

/-- `ex_stage2` without its initial geometry: the counts of
`initial_geometries` differ between `ex_stage1` and this record. -/
def ex_stage2_nogeom : Conformer := { ex_stage2 with initial_geometries := [] }

/-- `ex_stage1` with legacy error codes (1,1,101,1); its conformer id 123001
is not the whitelisted 795795001. -/
def ex_stage1_101 : Conformer :=
  { ex_stage1 with properties.errors.error_frequencies := 101 }

/-- `ex_stage2` with the initial-geometry energy moved by more than the 2e-6
tolerance (and not the -1 sentinel). -/
def ex_stage2_energy : Conformer :=
  { ex_stage2 with properties.initial_geometry_energy := some (1 + 1 / 100000) }

/-- The historical whitelisted conformer: a STAGE1 record with legacy error
codes (1,1,101,1) and conformer id 795795001. -/
def ex_stage1_101_795 : Conformer :=
  { ex_stage1_101 with conformer_id := 795795001 }

/-- A STAGE2 record matching `ex_stage1_101_795` (conformer id 795795001). -/
def ex_stage2_795 : Conformer := { ex_stage2 with conformer_id := 795795001 }

/-- A record with a -1.0 sentinel in its initial-geometry energy. -/
def ex_sentinel : Conformer :=
  { ex_stage2 with properties.initial_geometry_energy := some (-1) }

/-- A DUPLICATE-source record: no properties, only duplicate information. -/
def ex_dup : Conformer :=
  { conformer_id := 123001, duplicated_by := 123002, duplicate_of := [5, 6] }

/-- A second DUPLICATE-source record with the same conformer id. -/
def ex_dup2 : Conformer := { conformer_id := 123001, duplicate_of := [9] }

/-- A STAGE2 record with unified status 10 (severity 4, major error). -/
def ex_s2_status10 : Conformer :=
  { conformer_id := 123001, has_properties := true, properties := { errors := { status := 10 } } }

/-- Bond topologies for the summary example: one flagged starting topology
and two others. -/
def ex_btS : BondTopology := { bond_topology_id := 1, is_starting_topology := true }

/-- A non-starting bond topology. -/
def ex_btA : BondTopology := { bond_topology_id := 2 }

/-- Another non-starting bond topology. -/
def ex_btB : BondTopology := { bond_topology_id := 3 }

/-- A success-fate conformer with one starting topology and two others. -/
def ex_success : Conformer :=
  { conformer_id := 1001, fate := .FATE_SUCCESS, bond_topologies := [ex_btA, ex_btS, ex_btB] }

/-! Helper lemmas. -/

/-- `clear_sentinel` is idempotent on a single field. -/
theorem clear_sentinel_clear_sentinel (f : Option ℚ) :
    clear_sentinel (clear_sentinel f) = clear_sentinel f := by
  rcases f with _ | q
  · norm_num [clear_sentinel, field_value]
  · by_cases h : q = -1 <;> simp [clear_sentinel, field_value, h]

/-- After `clear_sentinel`, a field can no longer read as -1.0. -/
theorem field_value_clear_sentinel (f : Option ℚ) :
    field_value (clear_sentinel f) ≠ -1 := by
  rcases f with _ | q
  · norm_num [clear_sentinel, field_value]
  · by_cases h : q = -1 <;> simp [clear_sentinel, field_value, h]

/-- The STAGE2 severity ladder only produces the levels 0 to 5. -/
theorem stage2_error_level_cases (e : Errors) :
    stage2_error_level e = 5 ∨ stage2_error_level e = 4 ∨ stage2_error_level e = 3 ∨
    stage2_error_level e = 2 ∨ stage2_error_level e = 1 ∨ stage2_error_level e = 0 := by
  unfold stage2_error_level
  split
  · exact Or.inl rfl
  split
  · exact Or.inr (Or.inl rfl)
  split
  · exact Or.inr (Or.inr (Or.inl rfl))
  split
  · exact Or.inr (Or.inr (Or.inr (Or.inl rfl)))
  split
  · exact Or.inr (Or.inr (Or.inr (Or.inr (Or.inl rfl))))
  · exact Or.inr (Or.inr (Or.inr (Or.inr (Or.inr rfl))))

/-- Characterization of a successful `finish_merge`: the surviving second
record absorbs the nonzero duplicate link and the first record's
`duplicate_of` entries, and the snapshot is attached iff a conflict was
flagged. -/
theorem finish_merge_ok {c1 c2 : Conformer} {hc : Bool} {info : ConflictInfo}
    {m : Conformer} {r : Option ConflictInfo}
    (h : finish_merge c1 c2 hc info = .ok (m, r)) :
    m = { c2 with duplicated_by := max c1.duplicated_by c2.duplicated_by,
                  duplicate_of := c2.duplicate_of ++ c1.duplicate_of } ∧
    r = (if hc then some info else none) := by
  simp only [finish_merge] at h
  split at h
  · exact absurd h (by simp)
  · split at h <;> simp_all

/-- A successful STAGE1/STAGE2 body returns the conflict flag computed by
`stage12_has_conflict` on the incoming records, and the surviving record is
one of the two inputs (possibly modified, keeping its conformer id). -/
theorem merge_stage1_stage2_ok {a b c1 c2 : Conformer} {hc : Bool}
    (h : merge_stage1_stage2 a b = .ok (c1, c2, hc)) :
    hc = stage12_has_conflict a b ∧
    (c2.conformer_id = a.conformer_id ∨ c2.conformer_id = b.conformer_id) := by
  simp only [merge_stage1_stage2, copy_stage1_error_fields] at h
  split at h
  · split at h
    · split at h
      · obtain ⟨h1, h2, h3⟩ := by simpa using h
        subst h1; subst h2; subst h3
        simp_all
      · split at h <;>
        · obtain ⟨h1, h2, h3⟩ := by simpa using h
          subst h1; subst h2; subst h3
          simp_all
    · obtain ⟨h1, h2, h3⟩ := by simpa using h
      subst h1; subst h2; subst h3
      simp_all
  · exact absurd h (by simp)

/-- The 700/800 re-basing case of the STAGE1/STAGE2 body: when the stage-2
status is 700 or 800, the surviving record is the stage-1 record with status
`500 + stage2_status // 10`, the complete visibility tier, and the
vibrational-imaginary warning recomputed from the stage-1 record's harmonic
frequencies (left unchanged when no frequency is negative). -/
theorem merge_stage1_stage2_rebase {a b c1 c2 : Conformer} {hc : Bool}
    (hstat : b.properties.errors.status = 700 ∨ b.properties.errors.status = 800)
    (h : merge_stage1_stage2 a b = .ok (c1, c2, hc)) :
    c2.properties.errors.status = 500 + Int.fdiv b.properties.errors.status 10 ∧
    c2.which_database = WhichDatabase.COMPLETE ∧
    c2.properties.harmonic_frequencies = a.properties.harmonic_frequencies ∧
    c2.properties.errors.warn_vib_imaginary =
      (if a.properties.harmonic_frequencies.any (fun v => decide (v < -30)) then 2
       else if a.properties.harmonic_frequencies.any (fun v => decide (v < 0)) then 1
       else a.properties.errors.warn_vib_imaginary) := by
  simp only [merge_stage1_stage2, copy_stage1_error_fields] at h
  split at h
  · split at h
    · split at h
      · rename_i h30
        obtain ⟨h1, h2, h3⟩ := by simpa using h
        subst h1; subst h2; subst h3
        exact ⟨by simp, by simp, by simp, by simp [h30]⟩
      · rename_i h30
        split at h
        · rename_i h0
          obtain ⟨h1, h2, h3⟩ := by simpa using h
          subst h1; subst h2; subst h3
          exact ⟨by simp, by simp, by simp, by simp [h30, h0]⟩
        · rename_i h0
          obtain ⟨h1, h2, h3⟩ := by simpa using h
          subst h1; subst h2; subst h3
          exact ⟨by simp, by simp, by simp, by simp [h30, h0]⟩
    · simp_all
  · exact absurd h (by simp)

/-- A successful STAGE1/STAGE2 `merge_ordered` decomposes into a successful
`merge_stage1_stage2` followed by `finish_merge` over the up-front snapshot. -/
theorem merge_ordered_s12_ok {a b m : Conformer} {r : Option ConflictInfo}
    (h : merge_ordered a b .STAGE1 .STAGE2 = .ok (m, r)) :
    ∃ c1 c2 hc, merge_stage1_stage2 a b = .ok (c1, c2, hc) ∧
      finish_merge c1 c2 hc (merge_conflict_info a b) = .ok (m, r) := by
  simp only [merge_ordered] at h
  split at h
  · exact absurd h (by simp)
  split at h
  · exact absurd h (by simp)
  split at h
  · exact absurd h (by simp)
  split at h
  · exact absurd h (by simp)
  split at h
  · exact absurd h (by simp)
  rcases hstep : merge_stage1_stage2 a b with e | ⟨c1, c2, hc⟩ <;> rw [hstep] at h
  · exact absurd h (by simp)
  · exact ⟨c1, c2, hc, rfl, h⟩

/-- A successful `merge_ordered` whose source pair is not exactly
(STAGE1, STAGE2) skips the conflict-detection body: it never attaches a
snapshot, and the merged record is the second input with the reconciled
duplicate information. -/
theorem merge_ordered_trivial_ok {a b m : Conformer} {r : Option ConflictInfo}
    {s1 s2 : ConformerSource} (hns : ¬(s1 = .STAGE1 ∧ s2 = .STAGE2))
    (h : merge_ordered a b s1 s2 = .ok (m, r)) :
    r = none ∧
    m = { b with duplicated_by := max a.duplicated_by b.duplicated_by,
                 duplicate_of := b.duplicate_of ++ a.duplicate_of } := by
  simp only [merge_ordered] at h
  split at h
  · exact absurd h (by simp)
  split at h
  · exact absurd h (by simp)
  split at h
  · exact absurd h (by simp)
  split at h
  · exact absurd h (by simp)
  split at h
  · exact absurd h (by simp)
  have hfin := finish_merge_ok
    (show finish_merge a b false (merge_conflict_info a b) = .ok (m, r) from h)
  exact ⟨by simpa using hfin.2, hfin.1⟩

/-- With a STAGE1 first argument and a STAGE2 second argument,
`merge_conformer` is `merge_ordered` on the arguments in the given order. -/
theorem merge_conformer_s12 {a b : Conformer}
    (ha : conformer_source a = .ok .STAGE1) (hb : conformer_source b = .ok .STAGE2) :
    merge_conformer a b = merge_ordered a b .STAGE1 .STAGE2 := by
  simp [merge_conformer, ha, hb, ConformerSource.value]

/-- With mixed sources, `merge_conformer` normalizes the argument order, so
the merge result does not depend on which record is passed first. -/
theorem merge_conformer_mixed_comm {a b : Conformer} {sa sb : ConformerSource}
    (ha : conformer_source a = .ok sa) (hb : conformer_source b = .ok sb)
    (hne : sa ≠ sb) :
    merge_conformer b a = merge_conformer a b := by
  cases sa <;> cases sb <;>
    simp_all [merge_conformer, ConformerSource.value]

/-- With mixed sources, `merge_conformer` is `merge_ordered` on the pair
ordered by source value. -/
theorem merge_conformer_mixed {a b : Conformer} {sa sb : ConformerSource}
    (ha : conformer_source a = .ok sa) (hb : conformer_source b = .ok sb)
    (hne : sa ≠ sb) :
    merge_conformer a b =
      (if sb.value < sa.value then merge_ordered b a sb sa
       else merge_ordered a b sa sb) := by
  simp [merge_conformer, ha, hb, hne]

/-- A STAGE1/STAGE2 merge that returns normally attaches the snapshot exactly
when `stage12_has_conflict` holds on the (already ordered) inputs. -/
theorem stage12_conflict_reported {a b m : Conformer} {r : Option ConflictInfo}
    (ha : conformer_source a = .ok .STAGE1) (hb : conformer_source b = .ok .STAGE2)
    (hfl : stage12_has_conflict a b = true)
    (hm : merge_conformer a b = .ok (m, r)) :
    r = some (merge_conflict_info a b) := by
  rw [merge_conformer_s12 ha hb] at hm
  obtain ⟨c1, c2, hc, hstep, hfin⟩ := merge_ordered_s12_ok hm
  have hflag := (merge_stage1_stage2_ok hstep).1
  have hr := (finish_merge_ok hfin).2
  rw [hr, hflag, hfl]
  simp

/-- A successful `merge_ordered` keeps the conformer id of one of its two
inputs. -/
theorem merge_ordered_ok_id {a b m : Conformer} {r : Option ConflictInfo}
    {s1 s2 : ConformerSource}
    (h : merge_ordered a b s1 s2 = .ok (m, r)) :
    m.conformer_id = a.conformer_id ∨ m.conformer_id = b.conformer_id := by
  by_cases hs : s1 = .STAGE1 ∧ s2 = .STAGE2
  · obtain ⟨hs1, hs2⟩ := hs
    subst hs1; subst hs2
    obtain ⟨c1, c2, hc, hstep, hfin⟩ := merge_ordered_s12_ok h
    have hids := (merge_stage1_stage2_ok hstep).2
    have hmm := (finish_merge_ok hfin).1
    subst hmm
    simpa using hids
  · have := merge_ordered_trivial_ok hs h
    rw [this.2]
    exact Or.inr rfl

/-! Claim theorems. -/

/-- C8: `clean_up_sentinel_values` is idempotent — applying it twice leaves
the record in the same state as applying it once; it clears exactly those of
the four geometry energy / gradient-norm fields whose value is exactly -1.0,
and after cleaning no such field can read as -1.0 any more. -/
theorem C8_clean_up_sentinel_values_idempotent (c : Conformer) :
    clean_up_sentinel_values (clean_up_sentinel_values c) = clean_up_sentinel_values c ∧
    ((clean_up_sentinel_values c).properties.initial_geometry_energy =
      if field_value c.properties.initial_geometry_energy = -1 then none
      else c.properties.initial_geometry_energy) ∧
    ((clean_up_sentinel_values c).properties.initial_geometry_gradient_norm =
      if field_value c.properties.initial_geometry_gradient_norm = -1 then none
      else c.properties.initial_geometry_gradient_norm) ∧
    ((clean_up_sentinel_values c).properties.optimized_geometry_energy =
      if field_value c.properties.optimized_geometry_energy = -1 then none
      else c.properties.optimized_geometry_energy) ∧
    ((clean_up_sentinel_values c).properties.optimized_geometry_gradient_norm =
      if field_value c.properties.optimized_geometry_gradient_norm = -1 then none
      else c.properties.optimized_geometry_gradient_norm) ∧
    field_value ((clean_up_sentinel_values c).properties.initial_geometry_energy) ≠ -1 ∧
    field_value ((clean_up_sentinel_values c).properties.initial_geometry_gradient_norm) ≠ -1 ∧
    field_value ((clean_up_sentinel_values c).properties.optimized_geometry_energy) ≠ -1 ∧
    field_value ((clean_up_sentinel_values c).properties.optimized_geometry_gradient_norm) ≠ -1 := by
  refine ⟨?_, ?_, ?_, ?_, ?_, ?_, ?_, ?_, ?_⟩
  · simp [clean_up_sentinel_values, clear_sentinel_clear_sentinel]
  · simp [clean_up_sentinel_values, clear_sentinel]
  · simp [clean_up_sentinel_values, clear_sentinel]
  · simp [clean_up_sentinel_values, clear_sentinel]
  · simp [clean_up_sentinel_values, clear_sentinel]
  all_goals
    simp [clean_up_sentinel_values, field_value_clear_sentinel]

/-- Witness for C8 at a concrete record carrying a -1.0 sentinel energy. -/
theorem C8_clean_up_sentinel_values_idempotent_witness :
    clean_up_sentinel_values (clean_up_sentinel_values ex_sentinel) =
      clean_up_sentinel_values ex_sentinel :=
  (C8_clean_up_sentinel_values_idempotent ex_sentinel).1

/-- C6: merging two DUPLICATE-class records with the same conformer id
succeeds with no conflict report, and the merged record's `duplicate_of`
entries are the combined entries of both inputs — the same collection
regardless of which record is passed as the first argument. -/
theorem C6_duplicate_merge_union (a b : Conformer)
    (ha : conformer_source a = .ok .DUPLICATE) (hb : conformer_source b = .ok .DUPLICATE)
    (hid : a.conformer_id = b.conformer_id) :
    (merge_conformer a b).map (fun p => (p.1.duplicate_of, p.2)) =
      .ok (a.duplicate_of ++ b.duplicate_of, none) ∧
    (merge_conformer b a).map (fun p => (p.1.duplicate_of, p.2)) =
      .ok (b.duplicate_of ++ a.duplicate_of, none) ∧
    (↑(a.duplicate_of ++ b.duplicate_of) : Multiset Int) =
      ↑(b.duplicate_of ++ a.duplicate_of) := by
  refine ⟨?_, ?_, ?_⟩
  · simp [merge_conformer, ha, hb, Conformer.merge_from, Except.map]
  · simp [merge_conformer, ha, hb, Conformer.merge_from, Except.map]
  · simpa using add_comm (↑a.duplicate_of : Multiset Int) ↑b.duplicate_of

/-- Witness for C6 at two concrete DUPLICATE records. -/
theorem C6_duplicate_merge_union_witness :
    (merge_conformer ex_dup ex_dup2).map (fun p => (p.1.duplicate_of, p.2)) =
      .ok (ex_dup.duplicate_of ++ ex_dup2.duplicate_of, none) ∧
    (merge_conformer ex_dup2 ex_dup).map (fun p => (p.1.duplicate_of, p.2)) =
      .ok (ex_dup2.duplicate_of ++ ex_dup.duplicate_of, none) ∧
    (↑(ex_dup.duplicate_of ++ ex_dup2.duplicate_of) : Multiset Int) =
      ↑(ex_dup2.duplicate_of ++ ex_dup.duplicate_of) :=
  C6_duplicate_merge_union ex_dup ex_dup2 (by decide) (by decide) (by decide)

/-- C5: `determine_fate` is total and deterministic on STAGE1 and STAGE2
records: the severity of `conformer_calculation_error_level` is always within
0..5 (so the internal fatal branch for an unknown severity is unreachable),
`determine_fate` returns exactly one fate without raising, and re-invoking it
on the unchanged record gives the same value. -/
theorem C5_determine_fate_total (c : Conformer) (s : ConformerSource)
    (hs : conformer_source c = .ok s) (h12 : s = .STAGE1 ∨ s = .STAGE2) :
    (conformer_calculation_error_level c).map (fun l => decide (0 ≤ l ∧ l ≤ 5)) = .ok true ∧
    (determine_fate c).toOption.isSome = true ∧
    determine_fate c = determine_fate c := by
  rcases h12 with h | h <;> subst h
  · refine ⟨?_, ?_, rfl⟩
    · simp only [conformer_calculation_error_level, hs]
      split
      · rfl
      · split <;> rfl
    · simp only [determine_fate, hs]
      repeat' split
      all_goals rfl
  · refine ⟨?_, ?_, rfl⟩
    · have hlvl := stage2_error_level_cases c.properties.errors
      simp only [conformer_calculation_error_level, hs]
      rcases hlvl with h | h | h | h | h | h <;> rw [h] <;> rfl
    · have hlvl := stage2_error_level_cases c.properties.errors
      simp only [determine_fate, hs, conformer_calculation_error_level]
      rcases hlvl with h | h | h | h | h | h <;> rw [h] <;> rfl

/-- Witness for C5 at a concrete STAGE2 record with unified status 10
(severity 4, major error). -/
theorem C5_determine_fate_total_witness :
    (conformer_calculation_error_level ex_s2_status10).map
      (fun l => decide (0 ≤ l ∧ l ≤ 5)) = .ok true ∧
    (determine_fate ex_s2_status10).toOption.isSome = true ∧
    determine_fate ex_s2_status10 = determine_fate ex_s2_status10 :=
  C5_determine_fate_total ex_s2_status10 .STAGE2 (by decide) (Or.inr rfl)

/-- C3: merging a STAGE1 record that has one initial geometry with a STAGE2
record that has none (differing `initial_geometries` counts) does not return
a merged record with a conflict report: the unconditional indexing
`conf2.initial_geometries[0]`/`conf1.initial_geometries[0]` of the merge's
geometry-copy step raises IndexError, in either argument order, even though
the conflict flag for the count mismatch was already set. -/
theorem C3_geometry_count_mismatch_raises :
    conformer_source ex_stage1 = .ok .STAGE1 ∧
    conformer_source ex_stage2_nogeom = .ok .STAGE2 ∧
    ex_stage1.initial_geometries.length = 1 ∧
    ex_stage2_nogeom.initial_geometries.length = 0 ∧
    merge_conformer ex_stage1 ex_stage2_nogeom = .error .indexError ∧
    merge_conformer ex_stage2_nogeom ex_stage1 = .error .indexError := by
  decide

/-- C2: in a STAGE1/STAGE2 merge the 4-tuple of legacy stage-1 error codes
must be on the fixed whitelist or a conflict is flagged, except that a
frequencies code of 101 is judged solely by whether the conformer id is the
historical 795795001: whenever the check fails (101 with a different id, or a
non-101 tuple off the whitelist), a merge that returns normally always carries
a conflict report; and the whitelisted id itself is accepted (no conflict from
this check, and a fully matching merge reports none). -/
theorem C2_error_code_whitelist (a b : Conformer)
    (ha : conformer_source a = .ok .STAGE1) (hb : conformer_source b = .ok .STAGE2)
    (hid : a.conformer_id = b.conformer_id)
    (hbad : if a.properties.errors.error_frequencies = 101
            then a.conformer_id ≠ 795795001
            else (a.properties.errors.error_nstat1, a.properties.errors.error_nstatc,
                  a.properties.errors.error_frequencies, a.properties.errors.error_nstatt)
                 ∉ allowed_error_code_tuples)
    (hok : (merge_conformer a b).toOption.isSome = true) :
    error_codes_conflict a b = true ∧
    (merge_conformer a b).map (fun p => p.2.isSome) = .ok true ∧
    error_codes_conflict ex_stage1_101_795 ex_stage2_795 = false ∧
    (merge_conformer ex_stage1_101_795 ex_stage2_795).map (fun p => p.2) = .ok none := by
  have hconf : error_codes_conflict a b = true := by
    simp only [error_codes_conflict]
    split at hbad
    · rename_i h101
      rw [if_pos h101, decide_eq_true_eq, ← hid]
      exact hbad
    · rename_i h101
      rw [if_neg h101, decide_eq_true_eq]
      exact hbad
  refine ⟨hconf, ?_, by decide, by with_unfolding_all decide⟩
  have hfl : stage12_has_conflict a b = true := by
    simp [stage12_has_conflict, hconf]
  rcases hm : merge_conformer a b with e | ⟨m, r⟩
  · rw [hm] at hok
    simp [Except.toOption] at hok
  · have := stage12_conflict_reported ha hb hfl hm
    rw [this]
    simp [Except.map]

/-- Witness for C2 at a concrete pair: stage-1 legacy codes (1,1,101,1) with
conformer id 123001 ≠ 795795001. -/
theorem C2_error_code_whitelist_witness :
    error_codes_conflict ex_stage1_101 ex_stage2 = true ∧
    (merge_conformer ex_stage1_101 ex_stage2).map (fun p => p.2.isSome) = .ok true ∧
    error_codes_conflict ex_stage1_101_795 ex_stage2_795 = false ∧
    (merge_conformer ex_stage1_101_795 ex_stage2_795).map (fun p => p.2) = .ok none :=
  C2_error_code_whitelist ex_stage1_101 ex_stage2 (by decide) (by decide) (by decide)
    (by decide) (by with_unfolding_all decide)

/-- C4: the paired numeric-field comparison of a STAGE1/STAGE2 merge flags a
conflict iff the stage-2 value is not the -1 sentinel and the two values
differ by more than the absolute tolerance; the closeness comparison is
symmetric in the two values; the merge result does not depend on the argument
order; and a stage-2 initial-geometry energy differing from the stage-1 value
by more than 2e-6 (and not -1) always yields a conflict report. -/
theorem C4_numeric_tolerance (a b : Conformer) (v1 v2 atol : ℚ)
    (ha : conformer_source a = .ok .STAGE1) (hb : conformer_source b = .ok .STAGE2)
    (hsent : field_value b.properties.initial_geometry_energy ≠ -1)
    (hdiff : 2 / 1000000 < |field_value a.properties.initial_geometry_energy -
               field_value b.properties.initial_geometry_energy|)
    (hok : (merge_conformer a b).toOption.isSome = true) :
    (numeric_field_conflict v1 v2 atol = true ↔ v2 ≠ -1 ∧ atol < |v1 - v2|) ∧
    np_isclose v1 v2 atol = np_isclose v2 v1 atol ∧
    merge_conformer b a = merge_conformer a b ∧
    (merge_conformer a b).map (fun p => p.2.isSome) = .ok true := by
  refine ⟨?_, ?_, ?_, ?_⟩
  · simp [numeric_field_conflict, np_isclose, not_le]
  · simp [np_isclose, abs_sub_comm]
  · exact merge_conformer_mixed_comm ha hb (by decide)
  · have hfl : stage12_has_conflict a b = true := by
      have h1 : numeric_field_conflict (field_value a.properties.initial_geometry_energy)
          (field_value b.properties.initial_geometry_energy) (2 / 1000000) = true := by
        simp only [numeric_field_conflict, np_isclose, Bool.and_eq_true, decide_eq_true_eq,
          Bool.not_eq_true', decide_eq_false_iff_not, not_le]
        exact ⟨hsent, hdiff⟩
      simp [stage12_has_conflict, numeric_conflicts, h1]
    rcases hm : merge_conformer a b with e | ⟨m, r⟩
    · rw [hm] at hok
      simp [Except.toOption] at hok
    · have := stage12_conflict_reported ha hb hfl hm
      rw [this]
      simp [Except.map]

/-- Witness for C4 at a concrete pair whose stage-2 initial-geometry energy
differs from the stage-1 value by 1e-5 > 2e-6. -/
theorem C4_numeric_tolerance_witness :
    (numeric_field_conflict (1 : ℚ) (2 : ℚ) (2 / 1000000) = true ↔
       (2 : ℚ) ≠ -1 ∧ (2 : ℚ) / 1000000 < |(1 : ℚ) - (2 : ℚ)|) ∧
    np_isclose (1 : ℚ) (2 : ℚ) (2 / 1000000) = np_isclose (2 : ℚ) (1 : ℚ) (2 / 1000000) ∧
    merge_conformer ex_stage2_energy ex_stage1 = merge_conformer ex_stage1 ex_stage2_energy ∧
    (merge_conformer ex_stage1 ex_stage2_energy).map (fun p => p.2.isSome) = .ok true :=
  C4_numeric_tolerance ex_stage1 ex_stage2_energy 1 2 (2 / 1000000) (by decide) (by decide)
    (by with_unfolding_all decide) (by with_unfolding_all decide) (by with_unfolding_all decide)

/-- C7: for every pair of records with equal conformer ids whose merge
returns normally, the merged record keeps the common conformer id — no branch
of the merge changes it. -/
theorem C7_merge_preserves_conformer_id (a b : Conformer)
    (hid : a.conformer_id = b.conformer_id)
    (hok : (merge_conformer a b).toOption.isSome = true) :
    (merge_conformer a b).map (fun p => p.1.conformer_id) = .ok a.conformer_id := by
  rcases hm : merge_conformer a b with e | ⟨m, r⟩
  · rw [hm] at hok
    simp [Except.toOption] at hok
  · simp only [Except.map]
    suffices h : m.conformer_id = a.conformer_id by rw [h]
    unfold merge_conformer at hm
    split at hm
    · exact absurd hm (by simp)
    split at hm
    · exact absurd hm (by simp)
    split at hm
    · split at hm
      · exact absurd hm (by simp)
      · obtain ⟨h1, h2⟩ := by simpa using hm
        subst h1
        simp only [Conformer.merge_from, merge_scalar_int]
        split
        · exact hid.symm
        · rfl
    · split at hm
      · rcases merge_ordered_ok_id hm with h | h
        · exact h.trans hid.symm
        · exact h
      · rcases merge_ordered_ok_id hm with h | h
        · exact h
        · exact h.trans hid.symm

/-- Witness for C7 at a concrete DUPLICATE + STAGE2 pair. -/
theorem C7_merge_preserves_conformer_id_witness :
    (merge_conformer ex_dup ex_stage2).map (fun p => p.1.conformer_id) =
      .ok ex_dup.conformer_id :=
  C7_merge_preserves_conformer_id ex_dup ex_stage2 (by decide) (by decide)

/-- A merge that starts from a DUPLICATE-source first record never reports a
conflict. -/
theorem merge_ordered_dup_map {x y : Conformer} {s2 : ConformerSource}
    (hok : (merge_ordered x y .DUPLICATE s2).toOption.isSome = true) :
    (merge_ordered x y .DUPLICATE s2).map (fun p => p.2) = .ok none := by
  rcases hm : merge_ordered x y .DUPLICATE s2 with e | ⟨m, r⟩
  · rw [hm] at hok
    simp [Except.toOption] at hok
  · have := merge_ordered_trivial_ok (by simp) hm
    rw [this.1]
    simp [Except.map]

/-- C10: merging a DUPLICATE-class record with a STAGE1 or STAGE2 record, in
either argument order, never produces a conflict report when it returns
normally: the second component is always `none`. -/
theorem C10_duplicate_merge_never_reports (a b : Conformer) (sa sb : ConformerSource)
    (ha : conformer_source a = .ok sa) (hb : conformer_source b = .ok sb)
    (hmix : (sa = .DUPLICATE ∧ (sb = .STAGE1 ∨ sb = .STAGE2)) ∨
            (sb = .DUPLICATE ∧ (sa = .STAGE1 ∨ sa = .STAGE2)))
    (hok : (merge_conformer a b).toOption.isSome = true) :
    (merge_conformer a b).map (fun p => p.2) = .ok none := by
  rcases hmix with ⟨h1, h2 | h2⟩ | ⟨h1, h2 | h2⟩ <;> subst h1 <;> subst h2 <;>
    rw [merge_conformer_mixed ha hb (by decide)] at hok ⊢ <;>
    norm_num [ConformerSource.value] at hok ⊢ <;>
    exact merge_ordered_dup_map hok

/-- Witness for C10 at a concrete DUPLICATE + STAGE2 pair. -/
theorem C10_duplicate_merge_never_reports_witness :
    (merge_conformer ex_dup ex_stage2).map (fun p => p.2) = .ok none :=
  C10_duplicate_merge_never_reports ex_dup ex_stage2 .DUPLICATE .STAGE2 (by decide)
    (by decide) (Or.inl ⟨rfl, Or.inr rfl⟩) (by decide)

/-- C1 (amended): when the STAGE2 side of a STAGE1/STAGE2 merge has unified
status 700 or 800, the merge re-bases on the stage-1 record and sets the
merged record's status to `500 + (stage-2 status) // 10` (570 for 700, 580
for 800) — the divided status is the stage-2 record's, not the stage-1
record's — marks it as the complete tier, and sets warn_vib_imaginary to 2 if
any of the merged (stage-1) record's harmonic frequencies is below -30, to 1
if any is below 0, and leaves it unchanged otherwise. -/
theorem C1_rebase_amended (a b : Conformer)
    (ha : conformer_source a = .ok .STAGE1) (hb : conformer_source b = .ok .STAGE2)
    (hstat : b.properties.errors.status = 700 ∨ b.properties.errors.status = 800)
    (hok : (merge_conformer a b).toOption.isSome = true) :
    (merge_conformer a b).map
        (fun p => (p.1.properties.errors.status, p.1.which_database,
                   p.1.properties.harmonic_frequencies,
                   p.1.properties.errors.warn_vib_imaginary)) =
      .ok (500 + Int.fdiv b.properties.errors.status 10, WhichDatabase.COMPLETE,
           a.properties.harmonic_frequencies,
           if a.properties.harmonic_frequencies.any (fun v => decide (v < -30)) then 2
           else if a.properties.harmonic_frequencies.any (fun v => decide (v < 0)) then 1
           else a.properties.errors.warn_vib_imaginary) := by
  rcases hm : merge_conformer a b with e | ⟨m, r⟩
  · rw [hm] at hok
    simp [Except.toOption] at hok
  · rw [merge_conformer_s12 ha hb] at hm
    obtain ⟨c1, c2, hc, hstep, hfin⟩ := merge_ordered_s12_ok hm
    obtain ⟨hst, hdb, hhf, hwarn⟩ := merge_stage1_stage2_rebase hstat hstep
    have hmm := (finish_merge_ok hfin).1
    subst hmm
    simp [Except.map, hst, hdb, hhf, hwarn]

set_option maxRecDepth 10000 in
/-- Witness for the amended C1 at a concrete pair with stage-2 status 700. -/
theorem C1_rebase_amended_witness :
    (merge_conformer ex_stage1 ex_stage2_700).map
        (fun p => (p.1.properties.errors.status, p.1.which_database,
                   p.1.properties.harmonic_frequencies,
                   p.1.properties.errors.warn_vib_imaginary)) =
      .ok (500 + Int.fdiv ex_stage2_700.properties.errors.status 10, WhichDatabase.COMPLETE,
           ex_stage1.properties.harmonic_frequencies,
           if ex_stage1.properties.harmonic_frequencies.any (fun v => decide (v < -30)) then 2
           else if ex_stage1.properties.harmonic_frequencies.any
               (fun v => decide (v < 0)) then 1
           else ex_stage1.properties.errors.warn_vib_imaginary) :=
  C1_rebase_amended ex_stage1 ex_stage2_700 (by decide) (by decide) (Or.inl (by decide))
    (by with_unfolding_all decide)

set_option maxRecDepth 10000 in
/-- C1 (counterexample to the claim as stated): merging a stage-1 record with
status 0 and a stage-2 record with status 700 gives merged status 570, whereas
`500 + (stage-1 status) // 10` would be 500. -/
theorem C1_status_formula_counterexample :
    (merge_conformer ex_stage1 ex_stage2_700).map (fun p => p.1.properties.errors.status) =
      .ok 570 ∧
    ex_stage1.properties.errors.status = 0 ∧
    500 + Int.fdiv ex_stage1.properties.errors.status 10 = 500 ∧
    (570 : Int) ≠ 500 := by
  with_unfolding_all decide

/-- The starting-topology search finds the flagged entry: with no flagged
entry before it, the first flagged topology's index is returned. -/
theorem find_starting_index_append (pre post : List BondTopology) (s : BondTopology)
    (hpre : ∀ bt ∈ pre, bt.is_starting_topology = false)
    (hs : s.is_starting_topology = true) :
    find_starting_index (pre ++ s :: post) = some pre.length := by
  induction pre with
  | nil => simp [find_starting_index, hs]
  | cons x xs ih =>
    have hx : x.is_starting_topology = false := hpre x (by simp)
    have ihh := ih fun bt hbt => hpre bt (by simp [hbt])
    simp [find_starting_index, hx, ihh]

/-- C9: a FATE_SUCCESS conformer whose bond topologies are exactly one
flagged starting topology plus two other (unflagged) topologies yields
exactly 3 summaries: one secondary summary per other topology with
`count_detected_match_success = 1` (the starting topology is not among them),
and one primary summary for the starting topology with
`count_attempted_conformers = 1`, `count_kept_geometry = 1` and
`count_calculation_success = 1`. -/
theorem C9_success_summaries (c : Conformer) (pre post : List BondTopology) (s : BondTopology)
    (hfate : c.fate = .FATE_SUCCESS)
    (hbts : c.bond_topologies = pre ++ s :: post)
    (hs : s.is_starting_topology = true)
    (hpre : ∀ bt ∈ pre, bt.is_starting_topology = false)
    (hpost : ∀ bt ∈ post, bt.is_starting_topology = false)
    (hlen : pre.length + post.length = 2) :
    conformer_to_bond_topology_summaries c =
      .ok ((pre ++ post).map
          (fun bt => ({ bond_topology := bt, count_detected_match_success := 1 } :
            BondTopologySummary)) ++
        [({ bond_topology := s, count_attempted_conformers := 1, count_kept_geometry := 1,
            count_calculation_success := 1 } : BondTopologySummary)]) ∧
    ((pre ++ post).map
        (fun bt => ({ bond_topology := bt, count_detected_match_success := 1 } :
          BondTopologySummary)) ++
      [({ bond_topology := s, count_attempted_conformers := 1, count_kept_geometry := 1,
          count_calculation_success := 1 } : BondTopologySummary)]).length = 3 := by
  have hlen3 : c.bond_topologies.length = 3 := by
    rw [hbts]
    simp
    omega
  have hfind : find_starting_index c.bond_topologies = some pre.length := by
    rw [hbts]
    exact find_starting_index_append pre post s hpre hs
  have hidx : get_starting_bond_topology_index c = .ok pre.length := by
    rw [get_starting_bond_topology_index, hlen3, hfind]
    simp
  have hget : c.bond_topologies[pre.length]?.getD {} = s := by
    rw [hbts, List.getElem?_append_right (Nat.le_refl _)]
    simp
  have hothers : other_topologies c (some pre.length) = pre ++ post := by
    rw [other_topologies, hbts]
    congr 1
    · exact List.take_left pre (s :: post)
    · have hsplit : pre ++ s :: post = (pre ++ [s]) ++ post := by simp
      rw [hsplit, List.drop_left' (by simp)]
  constructor
  · rw [conformer_to_bond_topology_summaries, hidx, hfate]
    simp only [Except.toOption, hget, hothers]
  · simp only [List.length_append, List.length_map, List.length_singleton]
    omega

/-- Witness for C9 at a concrete success-fate conformer with three bond
topologies of which exactly the middle one is flagged as starting. -/
theorem C9_success_summaries_witness :
    conformer_to_bond_topology_summaries ex_success =
      .ok (([ex_btA] ++ [ex_btB]).map
          (fun bt => ({ bond_topology := bt, count_detected_match_success := 1 } :
            BondTopologySummary)) ++
        [({ bond_topology := ex_btS, count_attempted_conformers := 1, count_kept_geometry := 1,
            count_calculation_success := 1 } : BondTopologySummary)]) ∧
    (([ex_btA] ++ [ex_btB]).map
        (fun bt => ({ bond_topology := bt, count_detected_match_success := 1 } :
          BondTopologySummary)) ++
      [({ bond_topology := ex_btS, count_attempted_conformers := 1, count_kept_geometry := 1,
          count_calculation_success := 1 } : BondTopologySummary)]).length = 3 :=
  C9_success_summaries ex_success [ex_btA] [ex_btB] ex_btS (by decide) (by decide) (by decide)
    (by decide) (by decide) (by decide)

end SmuUtilsLib
